import Mathlib

/-!
Verification of the toot-composition workflow of `src/toot/asynch/commands.py`
(the `post` click command and its `validate_language` option callback).

The Python code is embedded shallowly: the straight-line body of `post` is
split into stage functions that mirror its lines, state that the code reads
(terminal status, piped stdin contents, the text returned by the external
editor session and by interactive multiline input, and the random upload
identifiers) is passed explicitly through a `PostEnv`, and the observable
side effects of an invocation are recorded as an ordered event trace.
-/

namespace Toot

/-- Python truthiness of the `text` / `editor` values (either `None` or a
string): `None` and the empty string are falsy, every other string truthy. -/
def truthy : Option String → Bool
  | none => false
  | some s => if s = "" then false else true

/-- Whitespace as stripped by the Python string methods `rstrip` and
`strip` (the ASCII whitespace characters). -/
def pySpace (c : Char) : Bool :=
  c = ' ' || c = '\t' || c = '\n' || c = '\r' || c = '\x0b' || c = '\x0c'

/-- Embedding of Python `str.rstrip()`: remove trailing whitespace. -/
def rstrip (s : String) : String :=
  String.mk ((s.data.reverse.dropWhile pySpace).reverse)

/-- Embedding of Python `str.strip()`: remove leading and trailing
whitespace. -/
def strip (s : String) : String :=
  String.mk (((s.data.dropWhile pySpace).reverse.dropWhile pySpace).reverse)

/-- Embedding of Python `sep.join(parts)`. -/
def strJoin (sep : String) : List String → String
  | [] => ""
  | [x] => x
  | x :: y :: rest => x ++ sep ++ strJoin sep (y :: rest)

/-- Result dictionary of the stubbed media upload `_do_upload`
(commands.py lines 144-147): a random id and a synthetic URL. -/
structure UploadResult where
  id : Nat
  text_url : String
deriving DecidableEq

/-- The `click.UsageError`s raised by the body of `post`:
`editorNotTty` is "Cannot run editor if not in tty." (line 94),
`tooManyFiles` is "Cannot attach more than 4 files." (line 97),
`emptyPost` is "You must specify either text or media to post." (line 124). -/
inductive UsageError where
  | editorNotTty
  | tooManyFiles
  | emptyPost
deriving DecidableEq

/-- Observable effects of one invocation of `post`, in program order:
reading piped stdin, uploading one media file with its paired description,
invoking the external editor pre-populated with some text, and reading
interactive multiline input. -/
inductive Event where
  | readStdin
  | upload (file : String) (desc : Option String)
  | editorInvoked (prepopulated : String)
  | readMultiline
deriving DecidableEq

/-- Ambient state of one invocation: whether stdin is a terminal, what
`sys.stdin.read()` would return, what the external editor session returns
for a given pre-populated text, what interactive multiline input returns,
and the random identifier drawn by the i-th call of `_do_upload`. -/
structure PostEnv where
  stdinIsatty : Bool
  stdinContent : String
  editorFn : String → String
  multilineFn : String
  uploadId : Nat → Nat

/-- Command-line arguments of `post` as click passes them to the body:
`text` is the optional positional argument, `editor` the value of the
`-e` flag (`None` when absent), `media` and `description` the repeatable
options. The `language` option is validated by click before the body runs
and is unused inside the body, so it is handled separately (`runPostCli`). -/
structure PostArgs where
  text : Option String
  editor : Option String
  media : List String
  description : List String

/-- Embedding of commands.py line 107: the description paired with the
media file at index `idx` is `description[idx].strip()` when the
description sequence is long enough, and `None` otherwise. -/
def descAt (description : List String) (idx : Nat) : Option String :=
  if h : idx < description.length then some (strip description[idx]) else none

/-- Embedding of `_do_upload` (lines 144-147): the fake upload returns a
random id and the synthetic URL built from it. -/
def do_upload (env : PostEnv) (idx : Nat) : UploadResult :=
  { id := env.uploadId idx
    text_url := "http://example.com/" ++ toString (env.uploadId idx) }

/-- Embedding of the upload loop (lines 104-110): enumerate the media
paths from index `start`, pair each with its description, upload each,
collecting the upload results and the upload events in order. -/
def uploadLoop (env : PostEnv) (description : List String) :
    Nat → List String → List UploadResult × List Event
  | _, [] => ([], [])
  | idx, file :: rest =>
    let d := descAt description idx
    let r := do_upload env idx
    let (rs, evs) := uploadLoop env description (idx + 1) rest
    (r :: rs, Event.upload file d :: evs)

/-- The `uploaded_media` list of the loop at lines 104-110. -/
def uploaded_media (env : PostEnv) (args : PostArgs) : List UploadResult :=
  (uploadLoop env args.description 0 args.media).1

/-- The upload events performed by the loop at lines 104-110, in order. -/
def uploadTrace (env : PostEnv) (args : PostArgs) : List Event :=
  (uploadLoop env args.description 0 args.media).2

/-- Embedding of line 112: `media_ids = [m["id"] for m in uploaded_media]`. -/
def media_ids (env : PostEnv) (args : PostArgs) : List Nat :=
  (uploaded_media env args).map UploadResult.id

/-- Embedding of lines 100-101: when no text was given and stdin is not a
terminal, the text becomes the piped stdin contents with trailing
whitespace stripped. -/
def textAfterStdin (env : PostEnv) (args : PostArgs) : Option String :=
  if !truthy args.text && !env.stdinIsatty then some (rstrip env.stdinContent)
  else args.text

/-- The stdin-read event of lines 100-101, when that branch is taken. -/
def stdinTrace (env : PostEnv) (args : PostArgs) : List Event :=
  if !truthy args.text && !env.stdinIsatty then [Event.readStdin] else []

/-- Embedding of lines 114-115: when media was uploaded and no text has
been resolved yet, the text becomes the newline-joined upload URLs. -/
def textAfterMedia (env : PostEnv) (args : PostArgs) : Option String :=
  let t := textAfterStdin env args
  if !(uploaded_media env args).isEmpty && !truthy t then
    some (strJoin "\n" ((uploaded_media env args).map UploadResult.text_url))
  else t

/-- Modelled from the spec: `editor_input` lives in `toot.utils`, which is
not under `src/`. The spec says the editor is invoked "pre-populated with
whatever text has been resolved so far" and its saved output is used as
the final text; the session is modelled as the environment function
`editorFn` from the pre-populated text (empty when no text is resolved)
to the saved output. -/
def editor_input (env : PostEnv) (t : Option String) : String :=
  env.editorFn (t.getD "")

/-- Modelled from the spec: `multiline_input` lives in `toot.utils`, which
is not under `src/`. The spec says interactive multi-line input is read
from the terminal until the EOF key is pressed; the text so entered is
modelled as the environment field `multilineFn`. -/
def multiline_input (env : PostEnv) : String :=
  env.multilineFn

/-- Embedding of lines 117-121: the editor is invoked when editor mode is
requested, otherwise interactive multiline input is read when the text is
still empty. -/
def finalText (env : PostEnv) (args : PostArgs) : Option String :=
  let t := textAfterMedia env args
  if truthy args.editor then some (editor_input env t)
  else if !truthy t then some (multiline_input env)
  else t

/-- The editor or multiline event of lines 117-121, when one occurs. -/
def composeTrace (env : PostEnv) (args : PostArgs) : List Event :=
  let t := textAfterMedia env args
  if truthy args.editor then [Event.editorInvoked (t.getD "")]
  else if !truthy t then [Event.readMultiline]
  else []

instance {ε α : Type} [DecidableEq ε] [DecidableEq α] : DecidableEq (Except ε α) :=
  fun x y =>
  match x, y with
  | Except.error a, Except.error b =>
    if h : a = b then Decidable.isTrue (congrArg Except.error h)
    else Decidable.isFalse (fun hh => h (Except.error.inj hh))
  | Except.error _, Except.ok _ => Decidable.isFalse (fun hh => Except.noConfusion hh)
  | Except.ok _, Except.error _ => Decidable.isFalse (fun hh => Except.noConfusion hh)
  | Except.ok a, Except.ok b =>
    if h : a = b then Decidable.isTrue (congrArg Except.ok h)
    else Decidable.isFalse (fun hh => h (Except.ok.inj hh))

/-- Outcome of one invocation of `post`: a usage error or the final text
body and media ids of the would-be status, with the ordered trace of
observable effects. -/
structure PostOutcome where
  result : Except UsageError (String × List Nat)
  trace : List Event
deriving DecidableEq

/-- Embedding of the body of the `post` command (lines 86-124): the
editor/tty check, the media-count check, then stdin reading, the upload
loop, the media-URL fallback, editor or multiline input, and the final
empty-content check. -/
def post (env : PostEnv) (args : PostArgs) : PostOutcome :=
  if truthy args.editor && !env.stdinIsatty then
    { result := Except.error UsageError.editorNotTty, trace := [] }
  else if args.media.length > 4 then
    { result := Except.error UsageError.tooManyFiles, trace := [] }
  else
    let t := finalText env args
    let tr := stdinTrace env args ++ uploadTrace env args ++ composeTrace env args
    if !truthy t then { result := Except.error UsageError.emptyPost, trace := tr }
    else { result := Except.ok (t.getD "", media_ids env args), trace := tr }

/-- Outcome of running click's handling of the `language` option value:
the callback returns the value, raises `click.BadParameter` (a usage
error), or raises a Python `TypeError`. -/
inductive LangCheck where
  | ok (value : String)
  | badParameter
  | typeError
deriving DecidableEq

/-- Embedding of `validate_language` (lines 28-34). Click applies the
callback to the option's value even when the option was omitted, in which
case the value is `None` and `len(value)` raises a Python `TypeError`
instead of returning or raising `BadParameter`. -/
def validate_language : Option String → LangCheck
  | none => LangCheck.typeError
  | some s => if s.length ≠ 3 then LangCheck.badParameter else LangCheck.ok s

/-- Outcome of a full CLI invocation of `post`: parse-time failure of the
language callback, or the body ran. -/
inductive CliResult where
  | langBadParameter
  | langTypeError
  | ran (outcome : PostOutcome)
deriving DecidableEq

/-- Embedding of the click invocation of `post` (lines 80-92): option
callbacks, here `validate_language` on the `language` value, run at parse
time; only when the callback returns normally does the body of `post` run. -/
def runPostCli (env : PostEnv) (args : PostArgs) (language : Option String) :
    CliResult :=
  match validate_language language with
  | LangCheck.typeError => CliResult.langTypeError
  | LangCheck.badParameter => CliResult.langBadParameter
  | LangCheck.ok _ => CliResult.ran (post env args)

/-- Test for an upload event. -/
def isUploadEv : Event → Bool
  | Event.upload _ _ => true
  | _ => false

/-- The upload events of a trace, in order. -/
def uploadEvents (tr : List Event) : List Event :=
  tr.filter isUploadEv

/-- Concrete quiet environment: an interactive terminal, identity editor
session, empty multiline input, and upload ids drawn as index plus one. -/
def env0 : PostEnv :=
  { stdinIsatty := true, stdinContent := "", editorFn := fun s => s,
    multilineFn := "", uploadId := fun n => n + 1 }

/-- Concrete arguments: no text, no editor, no media, no descriptions. -/
def argsEmpty : PostArgs :=
  { text := none, editor := none, media := [], description := [] }

/-- Concrete arguments with five media paths. -/
def argsW3 : PostArgs :=
  { text := none, editor := none,
    media := ["a", "b", "c", "d", "e"], description := [] }

/-- Concrete non-terminal environment. -/
def envW7 : PostEnv :=
  { stdinIsatty := false, stdinContent := "piped", editorFn := fun s => s,
    multilineFn := "", uploadId := fun n => n }

/-- Concrete arguments with editor mode, text, and six media paths. -/
def argsW7 : PostArgs :=
  { text := some "hello", editor := some "vim",
    media := ["a", "b", "c", "d", "e", "f"], description := ["x"] }

/-- Concrete environment whose upload ids are all 1. -/
def envC1 : PostEnv :=
  { stdinIsatty := true, stdinContent := "", editorFn := fun s => s,
    multilineFn := "", uploadId := fun _ => 1 }

/-- Concrete arguments: one media path paired with a whitespace-only
description. -/
def argsC1 : PostArgs :=
  { text := some "hi", editor := none, media := ["a.png"], description := ["  "] }

/-- Concrete arguments: two media paths and four descriptions, the second
empty and the last two extra. -/
def argsW1 : PostArgs :=
  { text := some "hi", editor := none, media := ["a", "b"],
    description := [" x ", "", "zz", "extra"] }

/-- Concrete environment with a terminal on stdin and an editor session
that discards the pre-populated text and returns the empty string. -/
def envC2 : PostEnv :=
  { stdinIsatty := true, stdinContent := "", editorFn := fun _ => "",
    multilineFn := "x", uploadId := fun _ => 9 }

/-- Concrete arguments: no text, editor mode, one media path. -/
def argsC2 : PostArgs :=
  { text := none, editor := some "vim", media := ["a.png"], description := [] }

/-- Concrete non-terminal environment whose piped stdin is whitespace only. -/
def envC6 : PostEnv :=
  { stdinIsatty := false, stdinContent := "  ", editorFn := fun s => s,
    multilineFn := "", uploadId := fun _ => 1 }

/-- Concrete arguments: no text, no editor, one media path. -/
def argsC6 : PostArgs :=
  { text := none, editor := none, media := ["a.png"], description := [] }

/-- Concrete non-terminal environment with piped text and upload ids 5. -/
def envW6 : PostEnv :=
  { stdinIsatty := false, stdinContent := "hello \n", editorFn := fun s => s,
    multilineFn := "", uploadId := fun _ => 5 }

/-- Concrete terminal environment whose editor session saves the text
"custom", with upload ids 7. -/
def envC8 : PostEnv :=
  { stdinIsatty := true, stdinContent := "", editorFn := fun _ => "custom",
    multilineFn := "", uploadId := fun _ => 7 }

/-- Concrete arguments: no text, editor mode, one media path. -/
def argsC8 : PostArgs :=
  { text := none, editor := some "vim", media := ["a.png"], description := [] }

/-- Concrete terminal environment with upload ids 3. -/
def envW8 : PostEnv :=
  { stdinIsatty := true, stdinContent := "", editorFn := fun s => s,
    multilineFn := "", uploadId := fun _ => 3 }

/-- Concrete arguments: no text, no editor, a single media path. -/
def argsW8 : PostArgs :=
  { text := none, editor := none, media := ["pic.jpg"], description := [] }

/-- Concrete non-terminal environment with empty piped stdin. -/
def envC9 : PostEnv :=
  { stdinIsatty := false, stdinContent := "", editorFn := fun s => s,
    multilineFn := "", uploadId := fun _ => 2 }

lemma append_ne_empty_left (a b : String) (h : a ≠ "") : a ++ b ≠ "" := by
  intro hab
  apply h
  have hd : a.data ++ b.data = [] := by
    have := congrArg String.data hab
    simpa [String.data_append] using this
  have ha : a.data = [] := (List.append_eq_nil.mp hd).1
  cases a with
  | mk d =>
    simp only [String.data] at ha
    subst ha
    rfl

lemma strJoin_ne_empty (sep : String) (l : List String) (h : l ≠ [])
    (hall : ∀ x ∈ l, x ≠ "") : strJoin sep l ≠ "" := by
  match l with
  | [] => exact absurd rfl h
  | [x] =>
    simpa [strJoin] using hall x (by simp)
  | x :: y :: rest =>
    have hx : x ≠ "" := hall x (by simp)
    simpa [strJoin] using
      append_ne_empty_left (x ++ sep) (strJoin sep (y :: rest))
        (append_ne_empty_left x sep hx)

lemma do_upload_url_ne_empty (env : PostEnv) (i : Nat) :
    (do_upload env i).text_url ≠ "" := by
  simpa [do_upload] using
    append_ne_empty_left "http://example.com/" (toString (env.uploadId i)) (by decide)

lemma uploadLoop_fst_length (env : PostEnv) (d : List String) :
    ∀ (start : Nat) (media : List String),
      ((uploadLoop env d start media).1).length = media.length := by
  intro start media
  induction media generalizing start with
  | nil => simp [uploadLoop]
  | cons x xs ih => simp [uploadLoop, ih]

lemma uploadLoop_fst_mem (env : PostEnv) (d : List String) :
    ∀ (start : Nat) (media : List String) (r : UploadResult),
      r ∈ (uploadLoop env d start media).1 → ∃ i, r = do_upload env i := by
  intro start media
  induction media generalizing start with
  | nil => simp [uploadLoop]
  | cons x xs ih =>
    intro r hr
    simp only [uploadLoop] at hr
    rcases List.mem_cons.mp hr with h | h
    · exact ⟨start, h⟩
    · exact ih (start + 1) r h

lemma uploaded_media_isEmpty (env : PostEnv) (args : PostArgs) :
    (uploaded_media env args).isEmpty = args.media.isEmpty := by
  cases hm : args.media with
  | nil => simp [uploaded_media, uploadLoop, hm]
  | cons x xs => simp [uploaded_media, uploadLoop, hm]

lemma textAfterMedia_truthy (env : PostEnv) (args : PostArgs)
    (h : args.media ≠ []) : truthy (textAfterMedia env args) = true := by
  have hne : (uploaded_media env args).isEmpty = false := by
    rw [uploaded_media_isEmpty]
    cases hm : args.media with
    | nil => exact absurd hm h
    | cons x xs => rfl
  unfold textAfterMedia
  cases hb : truthy (textAfterStdin env args) with
  | true => simp [hb]
  | false =>
    simp only [hb, hne, Bool.not_false, Bool.and_true, Bool.and_self, if_true]
    have hmem : ∀ u ∈ (uploaded_media env args).map UploadResult.text_url, u ≠ "" := by
      intro u hu
      rcases List.mem_map.mp hu with ⟨r, hr, hru⟩
      rcases uploadLoop_fst_mem env args.description 0 args.media r hr with ⟨i, hi⟩
      rw [← hru, hi]
      exact do_upload_url_ne_empty env i
    have hlen : (uploaded_media env args) ≠ [] := by
      intro hnil
      rw [hnil] at hne
      simp at hne
    have hmapne : (uploaded_media env args).map UploadResult.text_url ≠ [] := by
      simpa using hlen
    have := strJoin_ne_empty "\n" ((uploaded_media env args).map UploadResult.text_url)
      hmapne hmem
    simp [truthy, this]

lemma uploadLoop_snd_eq (env : PostEnv) (d : List String) :
    ∀ (start : Nat) (media : List String),
      (uploadLoop env d start media).2
        = (media.enumFrom start).map (fun p => Event.upload p.2 (descAt d p.1)) := by
  intro start media
  induction media generalizing start with
  | nil => simp [uploadLoop]
  | cons x xs ih => simp [uploadLoop, List.enumFrom, ih]

lemma uploadLoop_snd_all_upload (env : PostEnv) (d : List String)
    (start : Nat) (media : List String) :
    ∀ e ∈ (uploadLoop env d start media).2, isUploadEv e = true := by
  intro e he
  rw [uploadLoop_snd_eq] at he
  rcases List.mem_map.mp he with ⟨p, _, hpe⟩
  rw [← hpe]
  rfl

lemma post_eq_of_checks (env : PostEnv) (args : PostArgs)
    (h1 : ¬(truthy args.editor = true ∧ env.stdinIsatty = false))
    (h2 : args.media.length ≤ 4) :
    post env args =
      (if !truthy (finalText env args) then
        { result := Except.error UsageError.emptyPost,
          trace := stdinTrace env args ++ uploadTrace env args ++ composeTrace env args }
      else
        { result := Except.ok ((finalText env args).getD "", media_ids env args),
          trace := stdinTrace env args ++ uploadTrace env args ++ composeTrace env args }) := by
  unfold post
  have hc1 : (truthy args.editor && !env.stdinIsatty) = false := by
    cases he : truthy args.editor with
    | false => simp
    | true =>
      cases ht : env.stdinIsatty with
      | false => exact absurd ⟨he, ht⟩ h1
      | true => simp [ht]
  have hc2 : ¬(args.media.length > 4) := by omega
  rw [if_neg (by simp [hc1]), if_neg (by simpa using hc2)]

lemma post_trace_eq (env : PostEnv) (args : PostArgs)
    (h1 : ¬(truthy args.editor = true ∧ env.stdinIsatty = false))
    (h2 : args.media.length ≤ 4) :
    (post env args).trace
      = stdinTrace env args ++ uploadTrace env args ++ composeTrace env args := by
  rw [post_eq_of_checks env args h1 h2]
  split <;> rfl

lemma uploadEvents_post_trace (env : PostEnv) (args : PostArgs)
    (h1 : ¬(truthy args.editor = true ∧ env.stdinIsatty = false))
    (h2 : args.media.length ≤ 4) :
    uploadEvents ((post env args).trace) = uploadTrace env args := by
  rw [post_trace_eq env args h1 h2]
  unfold uploadEvents
  rw [List.filter_append, List.filter_append]
  have hs : (stdinTrace env args).filter isUploadEv = [] := by
    unfold stdinTrace
    split <;> rfl
  have hcm : (composeTrace env args).filter isUploadEv = [] := by
    unfold composeTrace
    dsimp only
    split
    · rfl
    · split <;> rfl
  have hu : (uploadTrace env args).filter isUploadEv = uploadTrace env args :=
    List.filter_eq_self.mpr (uploadLoop_snd_all_upload env args.description 0 args.media)
  rw [hs, hcm, hu, List.nil_append, List.append_nil]

lemma post_text_congr (env : PostEnv) (args1 args2 : PostArgs)
    (he : args1.editor = args2.editor) (hm : args1.media = args2.media)
    (hd : args1.description = args2.description)
    (ht1 : truthy args1.text = truthy args2.text)
    (ht2 : args1.text.getD "" = args2.text.getD "")
    (ht3 : truthy args1.text = true → args1.text = args2.text) :
    post env args1 = post env args2 := by
  have hc : (!truthy args1.text && !env.stdinIsatty)
      = (!truthy args2.text && !env.stdinIsatty) := by rw [ht1]
  have hA : (truthy (textAfterStdin env args1) = truthy (textAfterStdin env args2))
      ∧ ((textAfterStdin env args1).getD "" = (textAfterStdin env args2).getD "")
      ∧ (truthy (textAfterStdin env args1) = true →
          textAfterStdin env args1 = textAfterStdin env args2) := by
    unfold textAfterStdin
    rw [hc]
    by_cases h : (!truthy args2.text && !env.stdinIsatty) = true
    · simp [h]
    · simp only [h, if_false, Bool.false_eq_true]
      exact ⟨ht1, ht2, ht3⟩
  have hS : stdinTrace env args1 = stdinTrace env args2 := by
    unfold stdinTrace
    rw [ht1]
  have hU : uploaded_media env args1 = uploaded_media env args2 := by
    unfold uploaded_media
    rw [hd, hm]
  have hUT : uploadTrace env args1 = uploadTrace env args2 := by
    unfold uploadTrace
    rw [hd, hm]
  have hMI : media_ids env args1 = media_ids env args2 := by
    unfold media_ids
    rw [hU]
  have hB : (truthy (textAfterMedia env args1) = truthy (textAfterMedia env args2))
      ∧ ((textAfterMedia env args1).getD "" = (textAfterMedia env args2).getD "")
      ∧ (truthy (textAfterMedia env args1) = true →
          textAfterMedia env args1 = textAfterMedia env args2) := by
    unfold textAfterMedia
    dsimp only
    rw [hU, hA.1]
    by_cases h : (!(uploaded_media env args2).isEmpty
        && !truthy (textAfterStdin env args2)) = true
    · simp [h]
    · simp only [h, if_false, Bool.false_eq_true]
      exact hA
  have hF : finalText env args1 = finalText env args2 := by
    unfold finalText editor_input multiline_input
    dsimp only
    rw [he, hB.1]
    by_cases hEd : truthy args2.editor = true
    · simp only [hEd, if_true]
      rw [hB.2.1]
    · simp only [hEd, if_false, Bool.false_eq_true]
      by_cases hT : (!truthy (textAfterMedia env args2)) = true
      · simp [hT]
      · simp only [hT, if_false, Bool.false_eq_true]
        apply hB.2.2
        rw [hB.1]
        simpa using hT
  have hC : composeTrace env args1 = composeTrace env args2 := by
    unfold composeTrace
    dsimp only
    rw [he, hB.1]
    by_cases hEd : truthy args2.editor = true
    · simp only [hEd, if_true]
      rw [hB.2.1]
    · simp only [hEd, if_false, Bool.false_eq_true]
  unfold post
  rw [he, hm, hF, hS, hUT, hMI, hC]

/-- Claim C3: for every invocation of the post command with more than 4
media paths, the command fails with a usage error and performs zero
uploads; indeed its whole effect trace is empty, so the upload function is
never called and no upload result is produced. -/
theorem post_too_many_media (env : PostEnv) (args : PostArgs)
    (h : args.media.length > 4) :
    ((post env args).result = Except.error UsageError.editorNotTty ∨
      (post env args).result = Except.error UsageError.tooManyFiles)
    ∧ (post env args).trace = [] := by
  unfold post
  cases hc : (truthy args.editor && !env.stdinIsatty) with
  | true => simp [hc]
  | false => simp [hc, h]

/-- Witness for claim C3 at five media paths. -/
theorem post_too_many_media_witness :
    ((post env0 argsW3).result = Except.error UsageError.editorNotTty ∨
      (post env0 argsW3).result = Except.error UsageError.tooManyFiles)
    ∧ (post env0 argsW3).trace = [] :=
  post_too_many_media env0 argsW3 (by decide)

/-- Claim C7: for every invocation of the post command with editor mode
requested while standard input is not a terminal, the command fails
immediately with the editor usage error and an empty effect trace,
independent of the values of all other flags and arguments (in particular
before the media-count check, uploads, and text resolution). -/
theorem post_editor_requires_tty (env : PostEnv) (args : PostArgs)
    (h1 : truthy args.editor = true) (h2 : env.stdinIsatty = false) :
    (post env args).result = Except.error UsageError.editorNotTty ∧
    (post env args).trace = [] := by
  unfold post
  simp [h1, h2]

/-- Witness for claim C7: editor mode without a terminal fails with the
editor error even though six media paths are also supplied. -/
theorem post_editor_requires_tty_witness :
    (post envW7 argsW7).result = Except.error UsageError.editorNotTty ∧
    (post envW7 argsW7).trace = [] :=
  post_editor_requires_tty envW7 argsW7 (by decide) (by decide)

/-- Claim C4: for every supplied language value, click validation succeeds
(and the body of post runs) exactly when the value has exactly 3
characters; any other length is rejected with the BadParameter usage
error at parse time, so the body of post never runs and no upload is
attempted. -/
theorem language_validation_ok_iff (env : PostEnv) (args : PostArgs) (s : String) :
    (runPostCli env args (some s) = CliResult.ran (post env args) ↔ s.length = 3)
    ∧ (s.length ≠ 3 → runPostCli env args (some s) = CliResult.langBadParameter) := by
  unfold runPostCli validate_language
  by_cases h : s.length = 3
  · simp [h]
  · simp [h]

/-- Witness for claim C4 at the two-character value "en". -/
theorem language_validation_witness :
    runPostCli env0 argsEmpty (some "en") = CliResult.langBadParameter :=
  (language_validation_ok_iff env0 argsEmpty "en").2 (by decide)

/-- Claim C5: when the language option is omitted, click still applies
validate_language to the value None, where len(None) raises a Python
TypeError: the callback neither returns normally nor raises the
BadParameter usage error, so no invocation of the post command without a
language value ever reaches the body of post. -/
theorem language_omitted_type_error :
    validate_language none = LangCheck.typeError ∧
    ∀ (env : PostEnv) (args : PostArgs),
      runPostCli env args none = CliResult.langTypeError := by
  exact ⟨rfl, fun _ _ => rfl⟩

/-- Counterexample to claim C1: a description that is whitespace-only
(hence empty after trimming) is not treated as absent; the upload is
performed with the empty-string description, not with no description. -/
theorem post_empty_desc_not_absent :
    (post envC1 argsC1).trace = [Event.upload "a.png" (some "")] ∧
    (post envC1 argsC1).trace ≠ [Event.upload "a.png" none] := by decide

/-- Claim C1 as amended: whenever the post command passes its editor/tty
and media-count checks (media sequences of length 0-4), the uploads it
performs pair descriptions to paths index-wise and in order: the i-th
upload carries the i-th path together with the i-th description trimmed
of surrounding whitespace, or no description when the description
sequence is shorter; descriptions beyond the path count are ignored; a
description that is empty after trimming is attached as the empty string,
not treated as absent. -/
theorem post_upload_pairing (env : PostEnv) (args : PostArgs)
    (h1 : ¬(truthy args.editor = true ∧ env.stdinIsatty = false))
    (h2 : args.media.length ≤ 4) :
    uploadEvents ((post env args).trace)
      = args.media.enum.map
          (fun p => Event.upload p.2 ((args.description.get? p.1).map strip)) := by
  rw [uploadEvents_post_trace env args h1 h2]
  unfold uploadTrace
  rw [uploadLoop_snd_eq]
  have hdesc : ∀ idx : Nat,
      descAt args.description idx = (args.description.get? idx).map strip := by
    intro idx
    unfold descAt
    by_cases h : idx < args.description.length
    · rw [dif_pos h, List.get?_eq_get h]
      rfl
    · rw [dif_neg h, List.get?_eq_none.mpr (by omega)]
      rfl
  show (args.media.enumFrom 0).map _ = _
  rw [List.enum]
  exact List.map_congr_left (fun p _ => by rw [hdesc p.1])

/-- Witness for claim C1 as amended: two paths paired with the first two
descriptions (trimmed), extra descriptions ignored. -/
theorem post_upload_pairing_witness :
    uploadEvents ((post env0 argsW1).trace)
      = [Event.upload "a" (some "x"), Event.upload "b" (some "")] := by
  have h := post_upload_pairing env0 argsW1 (by decide) (by decide)
  rw [h]
  decide

/-- Counterexample to claim C2: with one media attachment and editor mode
whose session saves empty text, the command still raises the
empty-content usage error, although the media attachment list is not
empty. -/
theorem post_empty_error_with_media :
    (post envC2 argsC2).result = Except.error UsageError.emptyPost ∧
    argsC2.media ≠ [] := by decide

/-- Claim C2 as amended: whenever the post command passes its editor/tty
and media-count checks, it fails with the empty-content usage error if
and only if the resolved final text is empty; this can only happen when
the media list is empty or editor mode is requested, because without
editor mode a non-empty media list forces non-empty text (the attachment
URLs), while an editor session may save empty text even with media
attached. -/
theorem post_empty_error_iff (env : PostEnv) (args : PostArgs)
    (h1 : ¬(truthy args.editor = true ∧ env.stdinIsatty = false))
    (h2 : args.media.length ≤ 4) :
    (post env args).result = Except.error UsageError.emptyPost ↔
      (truthy (finalText env args) = false ∧
        (args.media = [] ∨ truthy args.editor = true)) := by
  rw [post_eq_of_checks env args h1 h2]
  cases hf : truthy (finalText env args) with
  | false =>
    simp only [hf, Bool.not_false, if_true, true_and]
    constructor
    · intro _
      by_cases he : truthy args.editor = true
      · exact Or.inr he
      · left
        by_contra hm
        have ht := textAfterMedia_truthy env args hm
        have he' : truthy args.editor = false := by
          cases hee : truthy args.editor
          · rfl
          · exact absurd hee he
        have : truthy (finalText env args) = true := by
          unfold finalText
          simp [he', ht]
        rw [this] at hf
        cases hf
    · intro _
      trivial
  | true =>
    simp [hf]

/-- Witness for claim C2 as amended: with no text, no media and empty
multiline input, the command fails with the empty-content error. -/
theorem post_empty_error_iff_witness :
    (post env0 argsEmpty).result = Except.error UsageError.emptyPost :=
  (post_empty_error_iff env0 argsEmpty (by decide) (by decide)).mpr (by decide)

/-- Counterexample to claim C6: with no explicit text, non-terminal stdin
and no editor mode, when the piped input strips to the empty string the
resolved text is the attachment URL, not the stripped piped content. -/
theorem post_stdin_text_overridden :
    (post envC6 argsC6).result = Except.ok ("http://example.com/1", [1]) ∧
    (post envC6 argsC6).result
      ≠ Except.ok (rstrip envC6.stdinContent, media_ids envC6 argsC6) := by decide

/-- Claim C6 as amended: for every invocation of the post command where no
explicit text argument was given, standard input is not a terminal,
editor mode is not requested, the media count passes its check, and the
piped stdin content is non-empty after stripping trailing whitespace, the
resolved text equals the piped content with trailing whitespace removed;
when the piped content strips to empty the command instead falls through
to the later resolution steps. -/
theorem post_stdin_text (env : PostEnv) (args : PostArgs)
    (h1 : truthy args.text = false) (h2 : env.stdinIsatty = false)
    (h3 : truthy args.editor = false) (h4 : args.media.length ≤ 4)
    (h5 : rstrip env.stdinContent ≠ "") :
    (post env args).result = Except.ok (rstrip env.stdinContent, media_ids env args) := by
  have h1' : ¬(truthy args.editor = true ∧ env.stdinIsatty = false) := by
    intro hx
    rw [h3] at hx
    cases hx.1
  rw [post_eq_of_checks env args h1' h4]
  have hts : textAfterStdin env args = some (rstrip env.stdinContent) := by
    unfold textAfterStdin
    simp [h1, h2]
  have htt : truthy (textAfterStdin env args) = true := by
    rw [hts]
    simp [truthy, h5]
  have htm : textAfterMedia env args = textAfterStdin env args := by
    unfold textAfterMedia
    simp [htt]
  have hft : finalText env args = textAfterStdin env args := by
    unfold finalText
    simp [h3, htm, htt]
  rw [hft, htt, hts]
  rfl

/-- Witness for claim C6 as amended: piped "hello \n" resolves to "hello"
even though a media attachment is present. -/
theorem post_stdin_text_witness :
    (post envW6 argsC6).result = Except.ok ("hello", [5]) := by
  have h := post_stdin_text envW6 argsC6 (by decide) (by decide) (by decide)
    (by decide) (by decide)
  rw [h]
  decide

/-- Counterexample to claim C8: with one media attachment, no text argument
and nothing from stdin, but editor mode requested, the resolved text is
the editor's saved output, not the newline-joined attachment URLs. -/
theorem post_media_url_editor_override :
    (post envC8 argsC8).result = Except.ok ("custom", [7]) ∧
    ("custom" : String)
      ≠ strJoin "\n" ((uploaded_media envC8 argsC8).map UploadResult.text_url) := by decide

/-- Claim C8 as amended: for every invocation of the post command with a
non-empty media list passing the count check, editor mode not requested,
no text argument, and nothing resolved from stdin (stdin is a terminal or
the piped content strips to empty), the resolved text equals the
newline-joined sequence of the attachments' remote URLs in attachment
order; in particular for a single attachment it equals that attachment's
remote URL. -/
theorem post_media_url_fallback (env : PostEnv) (args : PostArgs)
    (h1 : truthy args.editor = false) (h2 : args.media ≠ [])
    (h3 : args.media.length ≤ 4) (h4 : truthy args.text = false)
    (h5 : env.stdinIsatty = true ∨ rstrip env.stdinContent = "") :
    (post env args).result =
      Except.ok (strJoin "\n" ((uploaded_media env args).map UploadResult.text_url),
        media_ids env args) := by
  have h1' : ¬(truthy args.editor = true ∧ env.stdinIsatty = false) := by
    intro hx
    rw [h1] at hx
    cases hx.1
  rw [post_eq_of_checks env args h1' h3]
  have hts : truthy (textAfterStdin env args) = false := by
    unfold textAfterStdin
    by_cases hc : (!truthy args.text && !env.stdinIsatty) = true
    · rw [if_pos hc]
      have h5' : rstrip env.stdinContent = "" := by
        rcases h5 with h5 | h5
        · exfalso
          rw [h4, h5] at hc
          simp at hc
        · exact h5
      rw [h5']
      decide
    · rw [if_neg hc]
      exact h4
  have hne : (uploaded_media env args).isEmpty = false := by
    rw [uploaded_media_isEmpty]
    cases hm : args.media with
    | nil => exact absurd hm h2
    | cons x xs => rfl
  have htm : textAfterMedia env args
      = some (strJoin "\n" ((uploaded_media env args).map UploadResult.text_url)) := by
    unfold textAfterMedia
    simp [hts, hne]
  have htmt : truthy (textAfterMedia env args) = true :=
    textAfterMedia_truthy env args h2
  have hft : finalText env args = textAfterMedia env args := by
    unfold finalText
    simp [h1, htmt]
  rw [htm] at htmt
  rw [hft, htm]
  simp [htmt]

/-- Witness for claim C8 as amended: a single attachment with no text
resolves to that attachment's remote URL. -/
theorem post_media_url_fallback_witness :
    (post envW8 argsW8).result = Except.ok ("http://example.com/3", [3]) := by
  have h := post_media_url_fallback envW8 argsW8 (by decide) (by decide)
    (by decide) (by decide) (by decide)
  rw [h]
  decide

/-- Counterexample to claim C9: with no text argument and non-terminal
stdin, the piped stdin is read as a text-resolution step before the
upload is performed: the trace shows the stdin read strictly before the
upload event. -/
theorem post_stdin_before_uploads :
    (post envC9 argsC6).trace = [Event.readStdin, Event.upload "a.png" none] ∧
    isUploadEv Event.readStdin = false := by decide

/-- Claim C9 as amended: in every invocation of the post command the trace
of effects decomposes into three phases in order: first the (possibly
absent) piped-stdin read, then all uploads, then the remaining
text-resolution steps (editor invocation or interactive multiline input).
So all uploads do precede the media-URL fallback, the editor and
interactive input, but the piped-stdin read, a text-resolution step,
precedes the uploads rather than following them. -/
theorem post_trace_phases (env : PostEnv) (args : PostArgs) :
    ∃ t1 t2 t3, (post env args).trace = t1 ++ t2 ++ t3
      ∧ (∀ e ∈ t1, e = Event.readStdin)
      ∧ (∀ e ∈ t2, isUploadEv e = true)
      ∧ (∀ e ∈ t3, isUploadEv e = false ∧ e ≠ Event.readStdin)
      ∧ uploadEvents ((post env args).trace) = t2 := by
  by_cases h1 : truthy args.editor = true ∧ env.stdinIsatty = false
  · refine ⟨[], [], [], ?_, ?_, ?_, ?_, ?_⟩ <;>
      first
        | (unfold post
           simp [h1.1, h1.2, uploadEvents])
        | simp
  · by_cases h2 : args.media.length ≤ 4
    · refine ⟨stdinTrace env args, uploadTrace env args, composeTrace env args,
        post_trace_eq env args h1 h2, ?_, ?_, ?_,
        uploadEvents_post_trace env args h1 h2⟩
      · intro e he
        unfold stdinTrace at he
        by_cases hc : (!truthy args.text && !env.stdinIsatty) = true
        · rw [if_pos hc] at he
          simpa using he
        · rw [if_neg hc] at he
          cases he
      · exact uploadLoop_snd_all_upload env args.description 0 args.media
      · intro e he
        unfold composeTrace at he
        dsimp only at he
        by_cases hc : truthy args.editor = true
        · rw [if_pos hc] at he
          have : e = Event.editorInvoked ((textAfterMedia env args).getD "") := by
            simpa using he
          rw [this]
          exact ⟨rfl, by simp⟩
        · rw [if_neg hc] at he
          by_cases hc2 : (!truthy (textAfterMedia env args)) = true
          · rw [if_pos hc2] at he
            have : e = Event.readMultiline := by simpa using he
            rw [this]
            exact ⟨rfl, by simp⟩
          · rw [if_neg hc2] at he
            cases he
    · have h2' : args.media.length > 4 := by omega
      refine ⟨[], [], [], ?_, ?_, ?_, ?_, ?_⟩ <;>
        first
          | (have h := post_too_many_media env args h2'
             rw [h.2]
             simp [uploadEvents])
          | simp

/-- Claim C10: an explicitly supplied empty-string text argument behaves
identically to an absent text argument: every decision point of the post
command tests the text for emptiness, and the editor is pre-populated
with the same (empty) text in both cases, so for every environment and
every combination of the other arguments the whole outcome (result and
effect trace) is the same. -/
theorem post_empty_text_eq_none (env : PostEnv) (e : Option String)
    (m d : List String) :
    post env { text := some "", editor := e, media := m, description := d }
      = post env { text := none, editor := e, media := m, description := d } := by
  exact post_text_congr env _ _ rfl rfl rfl
    (show truthy (some "") = truthy (none : Option String) by decide)
    (show (some "" : Option String).getD "" = (none : Option String).getD "" from rfl)
    (fun h =>
      absurd (show truthy (some "" : Option String) = true from h) (by decide))

end Toot
